import Mathlib

/-!
Shallow embedding of the presence-driven single-screen UI controller and
notification throttler of `src/main.py`.

Modelling conventions:
* Timestamps are integer seconds.  A timestamp cell of the external sheet is a
  `TsCell`: `empty` for the empty string `""`, `bad s` for a non-empty string
  on which `datetime.fromisoformat` raises, `good t` for a string parsing to
  time `t`.  `iso_to_dt` mirrors the Python helper of the same name
  (`main.py:92`): empty and unparseable strings both yield `none`.
* `user_id` cells of the `presence` sheet are `Option Int` (`none` = empty
  cell).  Every id cell this program writes is `str(int)`, hence numeric; the
  embedding restricts the store to such well-formed id cells (`get_presence`
  skips unparseable cells, `upsert_presence` would raise on them — neither
  path is reachable from states this code produces).
* A `main_message_id` cell is `Option Nat`: `none` for the empty string,
  `some m` for the numeric string of handle `m`.
* The chat transport is modelled by the `live` list of un-deleted main-message
  handles in `World`; `sendMessage` hands out the fresh handle `nextMsgId`,
  `deleteMessage` erases a handle, a delete of an already-gone handle being
  the tolerated no-op (`try/except: pass` in the source).  Out-of-band
  notification messages are recorded separately in `notifications`
  (target, dialog_id), since they are not main-screen messages.
* `Session` is `context.user_data` (the transient per-interaction session
  state): the keys `state`, `main_message_id`, `current_dialog_id`, each
  `none` when absent from the dict.
-/

inductive TsCell where
  | empty : TsCell
  | bad : String → TsCell
  | good : Int → TsCell
deriving DecidableEq, Repr

/-- `iso_to_dt` (main.py:92): `None`/empty → `None`; parse failure → `None`;
otherwise the parsed time. -/
def iso_to_dt : TsCell → Option Int
  | .empty => none
  | .bad _ => none
  | .good t => some t

/-- `utc_now_iso()` (main.py:89): the current time as a valid ISO string. -/
def utc_now_iso (now : Int) : TsCell := .good now

def STATE_DIALOG : String := "DIALOG"
def STATE_ONBOARDING_NAME : String := "ONBOARDING_NAME"
def PRESENCE_ACTIVE_SEC : Int := 60
def NOTIFY_COOLDOWN_SEC : Int := 60
def ACTIVE_WINDOW_SEC : Int := 20

/-- Python truthiness of an optional integer (`if not u1`): `None` and `0`
are falsy. -/
def pyTruthyOptInt : Option Int → Bool
  | none => false
  | some n => n != 0

/-- Python truthiness of an optional message id (`if msg_id:` on an `int`
or `None`): `None` and `0` are falsy. -/
def pyTruthyOptNat : Option Nat → Bool
  | none => false
  | some n => n != 0

/-- The dict returned by `get_presence` (main.py:163). -/
structure PresenceRecord where
  user_id : Int
  state : String
  current_dialog_id : String
  main_message_id : Option Nat
  updated_at : TsCell
deriving DecidableEq, Repr

/-- One row of the `presence` sheet (columns A..E); short rows are padded
with `""` by the reader, so absent cells are the empty value. -/
structure PresenceRow where
  user_id : Option Int
  state : String
  current_dialog_id : String
  main_message_id : Option Nat
  updated_at : TsCell
deriving DecidableEq, Repr

/-- The row written by `upsert_presence` (main.py:208-214): all five columns,
the id as a numeric string. -/
def presenceRowOf (p : PresenceRecord) : PresenceRow :=
  ⟨some p.user_id, p.state, p.current_dialog_id, p.main_message_id, p.updated_at⟩

/-- `get_presence` (main.py:163): scan rows, skip empty/unparseable id cells,
return the first row whose id matches; a zero-valued default otherwise. -/
def get_presence : List PresenceRow → Int → PresenceRecord
  | [], uid => ⟨uid, "", "", none, .empty⟩
  | r :: rest, uid =>
    match r.user_id with
    | none => get_presence rest uid
    | some n =>
      if n = uid then ⟨n, r.state, r.current_dialog_id, r.main_message_id, r.updated_at⟩
      else get_presence rest uid

/-- `upsert_presence` (main.py:197): find the first row with a matching
(non-empty) id cell and overwrite it in place; append when absent. -/
def upsert_presence : List PresenceRow → PresenceRecord → List PresenceRow
  | [], p => [presenceRowOf p]
  | r :: rest, p =>
    match r.user_id with
    | none => r :: upsert_presence rest p
    | some n =>
      if n = p.user_id then presenceRowOf p :: rest
      else r :: upsert_presence rest p

/-- `set_presence` (main.py:233): read-modify-write.  `state`,
`current_dialog_id` and `updated_at` are always replaced
(`current_dialog_id or ""` is the identity on the stored string), but
`main_message_id` is only replaced when the argument `is not None` —
otherwise the previously stored handle is kept. -/
def set_presence (rows : List PresenceRow) (user_id : Int) (state : String)
    (current_dialog_id : String) (main_message_id : Option Nat) (now : Int) :
    List PresenceRow :=
  let p := get_presence rows user_id
  upsert_presence rows
    { p with
      state := state
      current_dialog_id := current_dialog_id
      main_message_id :=
        match main_message_id with
        | some m => some m
        | none => p.main_message_id
      updated_at := utc_now_iso now }

/-- The dict of `get_dialog_meta` (main.py:100); also one row of the
`dialog_meta` sheet (columns A..E, short rows padded with `""`). -/
structure DialogMetaRecord where
  dialog_id : String
  u1_last_open_at : TsCell
  u2_last_open_at : TsCell
  u1_last_notify_at : TsCell
  u2_last_notify_at : TsCell
deriving DecidableEq, Repr

/-- `get_dialog_meta` (main.py:100): first row whose first column equals the
id, padded; zero-valued default when absent. -/
def get_dialog_meta : List DialogMetaRecord → String → DialogMetaRecord
  | [], did => ⟨did, .empty, .empty, .empty, .empty⟩
  | r :: rest, did => if r.dialog_id = did then r else get_dialog_meta rest did

/-- `upsert_dialog_meta` (main.py:127): overwrite the first row whose first
column equals `meta.dialog_id`, else append. -/
def upsert_dialog_meta : List DialogMetaRecord → DialogMetaRecord → List DialogMetaRecord
  | [], m => [m]
  | r :: rest, m =>
    if r.dialog_id = m.dialog_id then m :: rest
    else r :: upsert_dialog_meta rest m

/-- One row of the `dialogs` sheet as consumed by `get_dialog_users`
(main.py:1112): id and the two participants (always written as ints by
`start_dialog`). -/
structure DialogRow where
  dialog_id : String
  u1 : Int
  u2 : Int
deriving DecidableEq, Repr

/-- `get_dialog_users` (main.py:1112): participants of the first matching
row, `(None, None)` when the dialog is unknown. -/
def get_dialog_users : List DialogRow → String → Option Int × Option Int
  | [], _ => (none, none)
  | r :: rest, did =>
    if r.dialog_id = did then (some r.u1, some r.u2) else get_dialog_users rest did

/-- `context.user_data` keys used by the screen controller; `none` = key
absent. -/
structure Session where
  state : Option String
  main_message_id : Option Nat
  current_dialog_id : Option String
deriving DecidableEq, Repr

/-- `get_state` (main.py:243): missing key defaults to the first onboarding
state. -/
def get_state (s : Session) : String := s.state.getD STATE_ONBOARDING_NAME

/-- The state threaded through the controller: both sheets, the live
(un-deleted) main-message handles, the next fresh handle, and the
notification messages sent so far. -/
structure World where
  presenceRows : List PresenceRow
  metaRows : List DialogMetaRecord
  live : List Nat
  nextMsgId : Nat
  notifications : List (Int × String)
deriving DecidableEq, Repr

/-- `delete_message`: erasing an id that is no longer live is the tolerated
failure (`except: pass`). -/
def deleteMessage (w : World) (m : Nat) : World :=
  { w with live := w.live.erase m }

/-- `send_message`: a fresh handle becomes live and is returned. -/
def sendMessage (w : World) : World × Nat :=
  ({ w with live := w.nextMsgId :: w.live, nextMsgId := w.nextMsgId + 1 }, w.nextMsgId)

/-- `show_screen` (main.py:481): refuse inside `STATE_DIALOG`; pop the
previous handle from the session only (no Presence-Store fallback), delete
it when truthy, send the new screen, record its handle in the session and
write presence. -/
def show_screen (uid : Int) (now : Int) (w : World) (s : Session) : World × Session :=
  if get_state s = STATE_DIALOG then (w, s)
  else
    let msgId := s.main_message_id
    let s1 : Session := { s with main_message_id := none }
    let w1 := if pyTruthyOptNat msgId then deleteMessage w (msgId.getD 0) else w
    let (w2, sent) := sendMessage w1
    let s2 : Session := { s1 with main_message_id := some sent }
    let rows := set_presence w2.presenceRows uid (get_state s2)
      (s2.current_dialog_id.getD "") (some sent) now
    ({ w2 with presenceRows := rows }, s2)

/-- `render_dialog_screen` (main.py:513): the previous handle is read from
the Presence Store; a non-empty handle cell (string truthiness, so also
`"0"`) is deleted; the new screen is sent, presence is written with
`state = DIALOG`, and — only when a session context was passed — the
session is updated too.  `ctx` is the user's own session when the call is
user-initiated, `none` when the passed context is absent or belongs to
another user (the background mode used by the notification throttler). -/
def render_dialog_screen (dialogId : String) (uid : Int) (now : Int)
    (w : World) (ctx : Option Session) : World × Option Session :=
  let presence := get_presence w.presenceRows uid
  let oldMid := presence.main_message_id
  let w1 :=
    match oldMid with
    | some m => deleteMessage w m
    | none => w
  let (w2, sent) := sendMessage w1
  let rows := set_presence w2.presenceRows uid STATE_DIALOG dialogId (some sent) now
  let w3 := { w2 with presenceRows := rows }
  let ctx1 := ctx.map fun s =>
    { s with
      current_dialog_id := some dialogId
      main_message_id := some sent
      state := some STATE_DIALOG }
  (w3, ctx1)

/-- The `if target == u1` selection of the open timestamp
(main.py:1178-1185). -/
def targetLastOpen (m : DialogMetaRecord) (target u1 : Int) : TsCell :=
  if target = u1 then m.u1_last_open_at else m.u2_last_open_at

/-- The `if target == u1` selection of the notify timestamp
(main.py:1178-1185). -/
def targetLastNotify (m : DialogMetaRecord) (target u1 : Int) : TsCell :=
  if target = u1 then m.u1_last_notify_at else m.u2_last_notify_at

/-- `meta[notify_field] = now_dt.isoformat()` (main.py:1228): stamp the
target's notify column. -/
def stampNotify (m : DialogMetaRecord) (target u1 : Int) (now : Int) : DialogMetaRecord :=
  if target = u1 then { m with u1_last_notify_at := .good now }
  else { m with u2_last_notify_at := .good now }

/-- `ts and (now - ts).total_seconds() <= bound`: a datetime is always
truthy, so `none` fails the check. -/
def timeWithin (x : Option Int) (now bound : Int) : Bool :=
  match x with
  | some t => now - t ≤ bound
  | none => false

/-- `is_presence_fresh` (main.py:1199-1202). -/
def presenceFresh (p : PresenceRecord) (now : Int) : Bool :=
  timeWithin (iso_to_dt p.updated_at) now PRESENCE_ACTIVE_SEC

/-- `notify_new_dialog` (main.py:1163): resolve participants (`if not u1 or
not u2: return` — Python truthiness, so id `0` also counts as unresolved),
pick the target, run active-window then cooldown suppression, then either
silently refresh an actively-present target's dialog screen or send a
notification and stamp `last_notify`. -/
def notify_new_dialog (dialogs : List DialogRow) (did : String) (fromUser : Int)
    (now : Int) (w : World) (ctx : Option Session) : World × Option Session :=
  let users := get_dialog_users dialogs did
  if pyTruthyOptInt users.1 && pyTruthyOptInt users.2 then
    let u1 := users.1.getD 0
    let u2 := users.2.getD 0
    let target := if u1 = fromUser then u2 else u1
    let meta := get_dialog_meta w.metaRows did
    let lastOpen := iso_to_dt (targetLastOpen meta target u1)
    let lastNotify := iso_to_dt (targetLastNotify meta target u1)
    if timeWithin lastOpen now ACTIVE_WINDOW_SEC then (w, ctx)
    else if timeWithin lastNotify now NOTIFY_COOLDOWN_SEC then (w, ctx)
    else
      let presence := get_presence w.presenceRows target
      if presence.state = STATE_DIALOG ∧ presence.current_dialog_id = did ∧
          presenceFresh presence now = true then
        render_dialog_screen did target now w ctx
      else
        ({ w with
            notifications := w.notifications ++ [(target, did)]
            metaRows := upsert_dialog_meta w.metaRows (stampNotify meta target u1 now) },
          ctx)
  else (w, ctx)

/-- One screen-controller call for a given user.  `show` is a `show_screen`
through the user's own interaction; `render` is a `render_dialog_screen`
carrying the user's own session context. -/
inductive ScreenOp where
  | showOp : Int → ScreenOp
  | renderOp : String → Int → ScreenOp
deriving DecidableEq, Repr

/-- Run a sequence of screen-controller calls for user `uid`, threading the
world and the user's session. -/
def runOps (uid : Int) : List ScreenOp → World × Session → World × Session
  | [], ws => ws
  | ScreenOp.showOp now :: rest, (w, s) => runOps uid rest (show_screen uid now w s)
  | ScreenOp.renderOp did now :: rest, (w, s) =>
    let r := render_dialog_screen did uid now w (some s)
    runOps uid rest (r.1, r.2.getD s)

/-- Agreement between a user's session, their presence row and the live
messages: the session's recorded handle matches the stored one, every live
handle is the session's (so there is at most one, and none is the falsy
id 0), and fresh handles are really fresh. -/
abbrev ScreenInv (uid : Int) (w : World) (s : Session) : Prop :=
  s.main_message_id = (get_presence w.presenceRows uid).main_message_id ∧
  (∀ x ∈ w.live, 1 ≤ x ∧ x < w.nextMsgId) ∧
  1 ≤ w.nextMsgId ∧
  (w.live = [] ∨
    (s.main_message_id.isSome = true ∧ w.live = [s.main_message_id.getD 0]))

/-- `get_presence` right after `upsert_presence` of the same user sees
exactly the upserted record. -/
theorem get_presence_upsert (rows : List PresenceRow) (p : PresenceRecord) :
    get_presence (upsert_presence rows p) p.user_id =
      ⟨p.user_id, p.state, p.current_dialog_id, p.main_message_id, p.updated_at⟩ := by
  induction rows with
  | nil => simp [upsert_presence, get_presence, presenceRowOf]
  | cons r rest ih =>
    cases h : r.user_id with
    | none => simp [upsert_presence, get_presence, h, ih]
    | some n =>
      by_cases hn : n = p.user_id
      · simp [upsert_presence, get_presence, h, hn, presenceRowOf]
      · simp [upsert_presence, get_presence, h, hn, ih]

/-- `set_presence` then `get_presence` for the same user: the stored record
carries the given state, dialog id and time; the handle is the given one
when present, else the previously stored one. -/
theorem get_presence_set (rows : List PresenceRow) (uid : Int) (st cd : String)
    (mh : Option Nat) (now : Int) :
    get_presence (set_presence rows uid st cd mh now) uid =
      ⟨uid, st, cd,
        match mh with
        | some m => some m
        | none => (get_presence rows uid).main_message_id,
        .good now⟩ := by
  have huid : (get_presence rows uid).user_id = uid := by
    induction rows with
    | nil => simp [get_presence]
    | cons r rest ih =>
      cases h : r.user_id with
      | none => simp [get_presence, h, ih]
      | some n =>
        by_cases hn : n = uid
        · simp [get_presence, h, hn]
        · simp [get_presence, h, hn, ih]
  unfold set_presence
  dsimp only
  rw [huid]
  simpa [utc_now_iso] using get_presence_upsert rows
    ⟨uid, st, cd,
      match mh with
      | some m => some m
      | none => (get_presence rows uid).main_message_id,
      utc_now_iso now⟩

/-- `get_dialog_meta` always reports the id it was asked for. -/
theorem get_dialog_meta_id (rows : List DialogMetaRecord) (did : String) :
    (get_dialog_meta rows did).dialog_id = did := by
  induction rows with
  | nil => simp [get_dialog_meta]
  | cons r rest ih =>
    by_cases h : r.dialog_id = did
    · simp [get_dialog_meta, h]
    · simp [get_dialog_meta, h, ih]

/-- `get_dialog_meta` right after `upsert_dialog_meta` of the same dialog
sees exactly the upserted record. -/
theorem get_dialog_meta_upsert (rows : List DialogMetaRecord) (m : DialogMetaRecord) :
    get_dialog_meta (upsert_dialog_meta rows m) m.dialog_id = m := by
  induction rows with
  | nil => simp [upsert_dialog_meta, get_dialog_meta]
  | cons r rest ih =>
    by_cases h : r.dialog_id = m.dialog_id
    · simp [upsert_dialog_meta, get_dialog_meta, h]
    · simp [upsert_dialog_meta, get_dialog_meta, h, ih]

/-- Stamping the notify column leaves both open columns unchanged. -/
theorem stampNotify_open (m : DialogMetaRecord) (target u1 now : Int) :
    targetLastOpen (stampNotify m target u1 now) target u1 = targetLastOpen m target u1 := by
  by_cases h : target = u1 <;> simp [stampNotify, targetLastOpen, h]

/-- After stamping, the target's notify column is the stamp time. -/
theorem stampNotify_notify (m : DialogMetaRecord) (target u1 now : Int) :
    targetLastNotify (stampNotify m target u1 now) target u1 = .good now := by
  by_cases h : target = u1 <;> simp [stampNotify, targetLastNotify, h]

/-- Stamping preserves the dialog id. -/
theorem stampNotify_id (m : DialogMetaRecord) (target u1 now : Int) :
    (stampNotify m target u1 now).dialog_id = m.dialog_id := by
  by_cases h : target = u1 <;> simp [stampNotify, h]

/-- Explicit form of `show_screen` outside the `DIALOG` guard: delete the
session's truthy handle, put the fresh handle on top, record it in session
and presence; the meta sheet and notifications are untouched. -/
theorem show_screen_spec (uid now : Int) (w : World) (s : Session)
    (h : ¬ get_state s = STATE_DIALOG) :
    show_screen uid now w s =
      ({ presenceRows := set_presence w.presenceRows uid (get_state s)
            (s.current_dialog_id.getD "") (some w.nextMsgId) now,
         metaRows := w.metaRows,
         live := w.nextMsgId ::
           (if pyTruthyOptNat s.main_message_id then
             w.live.erase (s.main_message_id.getD 0) else w.live),
         nextMsgId := w.nextMsgId + 1,
         notifications := w.notifications },
       { s with main_message_id := some w.nextMsgId }) := by
  unfold show_screen
  rw [if_neg h]
  by_cases hp : pyTruthyOptNat s.main_message_id = true <;>
    simp [hp, deleteMessage, sendMessage, get_state]

/-- Explicit form of `render_dialog_screen`: delete the presence-stored
handle when present, put the fresh handle on top, write presence with
`state = DIALOG`, update the session only when one was passed; the meta
sheet and notifications are untouched. -/
theorem render_dialog_screen_spec (did : String) (uid now : Int) (w : World)
    (ctx : Option Session) :
    render_dialog_screen did uid now w ctx =
      ({ presenceRows := set_presence w.presenceRows uid STATE_DIALOG did
            (some w.nextMsgId) now,
         metaRows := w.metaRows,
         live := w.nextMsgId ::
           (match (get_presence w.presenceRows uid).main_message_id with
            | some m => w.live.erase m
            | none => w.live),
         nextMsgId := w.nextMsgId + 1,
         notifications := w.notifications },
       ctx.map fun s =>
         { s with
           current_dialog_id := some did
           main_message_id := some w.nextMsgId
           state := some STATE_DIALOG }) := by
  unfold render_dialog_screen
  cases hm : (get_presence w.presenceRows uid).main_message_id <;>
    simp [hm, deleteMessage, sendMessage]

/-- `upsert_dialog_meta` on a sheet with no matching row appends. -/
theorem upsert_dialog_meta_notfound (rows : List DialogMetaRecord)
    (m : DialogMetaRecord) (h : ∀ r ∈ rows, r.dialog_id ≠ m.dialog_id) :
    upsert_dialog_meta rows m = rows ++ [m] := by
  induction rows with
  | nil => simp [upsert_dialog_meta]
  | cons r rest ih =>
    have hr : r.dialog_id ≠ m.dialog_id := h r (by simp)
    simp [upsert_dialog_meta, hr, ih fun x hx => h x (by simp [hx])]

/-- `get_dialog_meta` skips a prefix with no matching row. -/
theorem get_dialog_meta_append (rows l : List DialogMetaRecord) (did : String)
    (h : ∀ r ∈ rows, r.dialog_id ≠ did) :
    get_dialog_meta (rows ++ l) did = get_dialog_meta l did := by
  induction rows with
  | nil => simp
  | cons r rest ih =>
    have hr : r.dialog_id ≠ did := h r (by simp)
    simp [get_dialog_meta, hr, ih fun x hx => h x (by simp [hx])]

/-- A `show_screen` call through the user's own interaction preserves the
session/presence/live agreement. -/
theorem screenInv_show (uid now : Int) (w : World) (s : Session)
    (h : ScreenInv uid w s) :
    ScreenInv uid (show_screen uid now w s).1 (show_screen uid now w s).2 := by
  by_cases hd : get_state s = STATE_DIALOG
  · simpa [show_screen, hd] using h
  · obtain ⟨h1, h2, h3, h4⟩ := h
    rw [show_screen_spec uid now w s hd]
    dsimp only
    have htail :
        (if pyTruthyOptNat s.main_message_id then
          w.live.erase (s.main_message_id.getD 0) else w.live) = [] := by
      rcases h4 with h4 | ⟨hs, h4⟩
      · by_cases hp : pyTruthyOptNat s.main_message_id = true <;> simp [h4, hp]
      · obtain ⟨m, hm⟩ := Option.isSome_iff_exists.mp hs
        have hm1 : 1 ≤ m := (h2 m (by simp [h4, hm])).1
        have hp : pyTruthyOptNat (some m) = true := by
          simp [pyTruthyOptNat]
          omega
        simp [hm, hp, h4]
    refine ⟨?_, ?_, ?_, ?_⟩
    · simp [get_presence_set]
    · intro x hx
      rcases List.mem_cons.mp hx with rfl | hx'
      · exact ⟨h3, Nat.lt_succ_self _⟩
      · rw [htail] at hx'
        simp at hx'
    · exact Nat.le_succ_of_le h3
    · right
      simp [htail]

/-- A `render_dialog_screen` call carrying the user's own session preserves
the session/presence/live agreement. -/
theorem screenInv_render (did : String) (uid now : Int) (w : World) (s : Session)
    (h : ScreenInv uid w s) :
    ScreenInv uid (render_dialog_screen did uid now w (some s)).1
      ((render_dialog_screen did uid now w (some s)).2.getD s) := by
  obtain ⟨h1, h2, h3, h4⟩ := h
  rw [render_dialog_screen_spec did uid now w (some s)]
  dsimp only [Option.map_some, Option.getD_some]
  have htail :
      (match (get_presence w.presenceRows uid).main_message_id with
       | some m => w.live.erase m
       | none => w.live) = [] := by
    rcases h4 with h4 | ⟨hs, h4⟩
    · cases hm : (get_presence w.presenceRows uid).main_message_id <;> simp [h4, hm]
    · obtain ⟨m, hm⟩ := Option.isSome_iff_exists.mp hs
      rw [← h1, hm]
      simp [h4, hm]
  refine ⟨?_, ?_, ?_, ?_⟩
  · simp [get_presence_set]
  · intro x hx
    rcases List.mem_cons.mp hx with rfl | hx'
    · exact ⟨h3, Nat.lt_succ_self _⟩
    · rw [htail] at hx'
      simp at hx'
  · exact Nat.le_succ_of_le h3
  · right
    simp [htail]

/-- The agreement bounds the number of live main messages by one. -/
theorem screenInv_length (uid : Int) (w : World) (s : Session)
    (h : ScreenInv uid w s) : w.live.length ≤ 1 := by
  rcases h.2.2.2 with h4 | ⟨_, h4⟩ <;> simp [h4]

/-- `get_dialog_meta` right after an upsert keyed at `did` sees the upserted
record. -/
theorem get_meta_upsert_at (rows : List DialogMetaRecord) (m : DialogMetaRecord)
    (did : String) (h : m.dialog_id = did) :
    get_dialog_meta (upsert_dialog_meta rows m) did = m :=
  h ▸ get_dialog_meta_upsert rows m

/-- `get_presence` on a sheet with no matching id cell yields the
zero-valued default. -/
theorem get_presence_notfound (rows : List PresenceRow) (uid : Int)
    (h : ∀ r ∈ rows, r.user_id ≠ some uid) :
    get_presence rows uid = ⟨uid, "", "", none, .empty⟩ := by
  induction rows with
  | nil => simp [get_presence]
  | cons r rest ih =>
    have hr : r.user_id ≠ some uid := h r (by simp)
    cases hu : r.user_id with
    | none => simpa [get_presence, hu] using ih fun x hx => h x (by simp [hx])
    | some n =>
      have hn : ¬ n = uid := by
        intro e
        exact hr (by rw [hu, e])
      simpa [get_presence, hu, hn] using ih fun x hx => h x (by simp [hx])

/-- `get_dialog_meta` on a sheet with no matching row yields the zero-valued
default. -/
theorem get_dialog_meta_notfound (rows : List DialogMetaRecord) (did : String)
    (h : ∀ r ∈ rows, r.dialog_id ≠ did) :
    get_dialog_meta rows did = ⟨did, .empty, .empty, .empty, .empty⟩ := by
  have := get_dialog_meta_append rows [] did h
  simpa [get_dialog_meta] using this

/-- Upserting a record keyed like the just-appended last row overwrites that
row. -/
theorem upsert_dialog_meta_append_match (rows : List DialogMetaRecord)
    (m1 m2 : DialogMetaRecord) (h0 : ∀ r ∈ rows, r.dialog_id ≠ m2.dialog_id)
    (h12 : m1.dialog_id = m2.dialog_id) :
    upsert_dialog_meta (rows ++ [m1]) m2 = rows ++ [m2] := by
  induction rows with
  | nil => simp [upsert_dialog_meta, h12]
  | cons r rest ih =>
    have hr : r.dialog_id ≠ m2.dialog_id := h0 r (by simp)
    simp [upsert_dialog_meta, hr, ih fun x hx => h0 x (by simp [hx])]

/-- Running any sequence of own-session calls preserves the agreement. -/
theorem screenInv_runOps (uid : Int) (ops : List ScreenOp) :
    ∀ w s, ScreenInv uid w s →
      ScreenInv uid (runOps uid ops (w, s)).1 (runOps uid ops (w, s)).2 := by
  induction ops with
  | nil => intro w s h; simpa [runOps] using h
  | cons op rest ih =>
    intro w s h
    cases op with
    | showOp now =>
      have := screenInv_show uid now w s h
      simpa [runOps] using ih _ _ this
    | renderOp did now =>
      have := screenInv_render did uid now w s h
      simpa [runOps] using ih _ _ this

/-- C7: `show_screen` invoked while the session state is `DIALOG` refuses
to proceed: it returns leaving the world (live messages, presence sheet,
meta sheet) and the session entirely unchanged. -/
theorem show_screen_refuses_dialog_state (uid now : Int) (w : World) (s : Session)
    (h : get_state s = STATE_DIALOG) :
    show_screen uid now w s = (w, s) := by
  simp [show_screen, h]

theorem show_screen_refuses_dialog_state_witness :
    get_state ⟨some "DIALOG", some 5, some "d"⟩ = STATE_DIALOG ∧
    show_screen 7 100 ⟨[], [], [5], 6, []⟩ ⟨some "DIALOG", some 5, some "d"⟩ =
      (⟨[], [], [5], 6, []⟩, ⟨some "DIALOG", some 5, some "d"⟩) :=
  ⟨by decide, show_screen_refuses_dialog_state 7 100 _ _ (by decide)⟩

/-- C9: `get_presence` for a user with no stored row and `get_dialog_meta`
for a dialog with no stored row return the zero-valued default records
(empty state, no dialog reference, no message handle, empty timestamps);
both are total functions, so no failure is possible for a missing key. -/
theorem missing_record_defaults (prows : List PresenceRow) (uid : Int)
    (mrows : List DialogMetaRecord) (did : String)
    (hp : ∀ r ∈ prows, r.user_id ≠ some uid)
    (hm : ∀ r ∈ mrows, r.dialog_id ≠ did) :
    get_presence prows uid = ⟨uid, "", "", none, .empty⟩ ∧
    get_dialog_meta mrows did = ⟨did, .empty, .empty, .empty, .empty⟩ :=
  ⟨get_presence_notfound prows uid hp, get_dialog_meta_notfound mrows did hm⟩

theorem missing_record_defaults_witness :
    (∀ r ∈ [(⟨some 3, "IDLE", "", none, .empty⟩ : PresenceRow)], r.user_id ≠ some 7) ∧
    (∀ r ∈ [(⟨"other", .empty, .empty, .empty, .empty⟩ : DialogMetaRecord)],
      r.dialog_id ≠ "d") ∧
    (get_presence [⟨some 3, "IDLE", "", none, .empty⟩] 7 = ⟨7, "", "", none, .empty⟩ ∧
     get_dialog_meta [⟨"other", .empty, .empty, .empty, .empty⟩] "d" =
       ⟨"d", .empty, .empty, .empty, .empty⟩) :=
  ⟨by decide, by decide,
    missing_record_defaults _ 7 _ "d" (by decide) (by decide)⟩

/-- C8: upserting a DialogMetaRecord with an unseen `dialog_id` and then
upserting again for the same id leaves exactly one row for that id, holding
the second record's values. -/
theorem dialog_meta_upsert_idempotent (rows : List DialogMetaRecord)
    (m1 m2 : DialogMetaRecord) (did : String)
    (h0 : ∀ r ∈ rows, r.dialog_id ≠ did)
    (h1 : m1.dialog_id = did) (h2 : m2.dialog_id = did) :
    (upsert_dialog_meta (upsert_dialog_meta rows m1) m2).countP
        (fun r => r.dialog_id == did) = 1 ∧
    get_dialog_meta (upsert_dialog_meta (upsert_dialog_meta rows m1) m2) did = m2 := by
  have e1 : upsert_dialog_meta rows m1 = rows ++ [m1] :=
    upsert_dialog_meta_notfound rows m1 fun r hr => by rw [h1]; exact h0 r hr
  have e2 : upsert_dialog_meta (rows ++ [m1]) m2 = rows ++ [m2] :=
    upsert_dialog_meta_append_match rows m1 m2
      (fun r hr => by rw [h2]; exact h0 r hr) (by rw [h1, h2])
  rw [e1, e2]
  constructor
  · have hz : rows.countP (fun r => r.dialog_id == did) = 0 := by
      rw [List.countP_eq_zero]
      intro r hr
      simpa using h0 r hr
    rw [List.countP_append, hz]
    simp [List.countP_cons, h2]
  · rw [get_dialog_meta_append rows [m2] did h0]
    simp [get_dialog_meta, h2]

theorem dialog_meta_upsert_idempotent_witness :
    (∀ r ∈ ([] : List DialogMetaRecord), r.dialog_id ≠ "d") ∧
    ((⟨"d", .empty, .empty, .empty, .empty⟩ : DialogMetaRecord).dialog_id = "d") ∧
    ((⟨"d", .good 1, .good 2, .good 3, .good 4⟩ : DialogMetaRecord).dialog_id = "d") ∧
    ((upsert_dialog_meta (upsert_dialog_meta [] ⟨"d", .empty, .empty, .empty, .empty⟩)
        ⟨"d", .good 1, .good 2, .good 3, .good 4⟩).countP
        (fun r => r.dialog_id == "d") = 1 ∧
     get_dialog_meta (upsert_dialog_meta (upsert_dialog_meta []
        ⟨"d", .empty, .empty, .empty, .empty⟩)
        ⟨"d", .good 1, .good 2, .good 3, .good 4⟩) "d" =
       ⟨"d", .good 1, .good 2, .good 3, .good 4⟩) :=
  ⟨by decide, by decide, by decide,
    dialog_meta_upsert_idempotent [] _ _ "d" (by decide) (by decide) (by decide)⟩

/-- C3 counterexample: `set_presence` called with an absent (`None`) handle
does not perform a full replace — with a stored handle `5`, the stored
record afterwards still carries handle `5` instead of the given absent
value, so it differs from the record built purely from the arguments. -/
theorem set_presence_counterexample :
    get_presence
        (set_presence [⟨some 7, "DIALOG", "d", some 5, .good 50⟩] 7 "IDLE" "" none 100)
        7 ≠ ⟨7, "IDLE", "", none, .good 100⟩ := by
  decide

/-- C3 amended: `set_presence` replaces `state`, `current_dialog_id` and
sets `updated_at := now`, but the stored `main_message_id` is replaced only
when a handle is given; when the argument is absent the previously stored
handle is retained. -/
theorem set_presence_replace_semantics (rows : List PresenceRow) (uid : Int)
    (st cd : String) (mh : Option Nat) (now : Int) :
    get_presence (set_presence rows uid st cd mh now) uid =
      ⟨uid, st, cd,
        match mh with
        | some m => some m
        | none => (get_presence rows uid).main_message_id,
        .good now⟩ :=
  get_presence_set rows uid st cd mh now

/-- C4 counterexample: with no handle in the session but handle `9` stored
in the Presence Store, `show_screen` deletes nothing — the stored handle
`9` is still live afterwards, so the claimed fallback read from the
Presence Store does not happen. -/
theorem show_screen_fallback_counterexample :
    (get_presence [⟨some 7, "RECOMMENDATION", "", some 9, .good 50⟩] 7).main_message_id
        = some 9 ∧
    (⟨some "RECOMMENDATION", none, none⟩ : Session).main_message_id = none ∧
    9 ∈ (show_screen 7 100
      ⟨[⟨some 7, "RECOMMENDATION", "", some 9, .good 50⟩], [], [9], 10, []⟩
      ⟨some "RECOMMENDATION", none, none⟩).1.live := by
  decide

/-- C4 amended: `show_screen` reads the previous handle exclusively from
the session (`user_data`); when the session holds no handle nothing is
deleted — regardless of what the Presence Store records — and the fresh
message is simply stacked on top of the live ones. -/
theorem show_screen_reads_session_only (uid now : Int) (w : World) (s : Session)
    (h1 : ¬ get_state s = STATE_DIALOG) (h2 : s.main_message_id = none) :
    (show_screen uid now w s).1.live = w.nextMsgId :: w.live ∧
    (show_screen uid now w s).2.main_message_id = some w.nextMsgId := by
  rw [show_screen_spec uid now w s h1]
  simp [h2, pyTruthyOptNat]

theorem show_screen_reads_session_only_witness :
    ¬ get_state ⟨some "RECOMMENDATION", none, none⟩ = STATE_DIALOG ∧
    (⟨some "RECOMMENDATION", none, none⟩ : Session).main_message_id = none ∧
    ((show_screen 7 100
        ⟨[⟨some 7, "RECOMMENDATION", "", some 9, .good 50⟩], [], [9], 10, []⟩
        ⟨some "RECOMMENDATION", none, none⟩).1.live = 10 :: [9] ∧
      (show_screen 7 100
        ⟨[⟨some 7, "RECOMMENDATION", "", some 9, .good 50⟩], [], [9], 10, []⟩
        ⟨some "RECOMMENDATION", none, none⟩).2.main_message_id = some 10) :=
  ⟨by decide, by decide,
    show_screen_reads_session_only 7 100 _ _ (by decide) (by decide)⟩

/-- C2 counterexample: starting from an empty, agreeing state, the sequence
`show_screen`, then a background `render_dialog_screen` (no session
context, as invoked by the notification throttler), then `show_screen`
leaves two live main messages: the background render records its handle
only in the Presence Store, the following `show_screen` deletes the stale
session handle and strands the rendered screen. -/
theorem single_screen_counterexample :
    ¬ ((show_screen 7 120
        (render_dialog_screen "d" 7 110
          (show_screen 7 100 ⟨[], [], [], 1, []⟩ ⟨some "RECOMMENDATION", none, none⟩).1
          none).1
        (show_screen 7 100 ⟨[], [], [], 1, []⟩
          ⟨some "RECOMMENDATION", none, none⟩).2).1.live.length ≤ 1) := by
  decide

/-- C2 amended: for any sequence of `show_screen` / `render_dialog_screen`
calls for one user in which every render carries the user's own session
context, starting from a state where session, Presence Store and live
messages agree, at most one main message is live after each call. -/
theorem single_screen_invariant_own_session (uid : Int) (ops : List ScreenOp)
    (w : World) (s : Session) (h : ScreenInv uid w s) :
    (runOps uid ops (w, s)).1.live.length ≤ 1 :=
  screenInv_length uid _ _ (screenInv_runOps uid ops w s h)

theorem single_screen_invariant_own_session_witness :
    ScreenInv 7 ⟨[], [], [], 1, []⟩ ⟨some "RECOMMENDATION", none, none⟩ ∧
    (runOps 7 [ScreenOp.showOp 100, ScreenOp.renderOp "d" 110, ScreenOp.showOp 120]
      (⟨[], [], [], 1, []⟩, ⟨some "RECOMMENDATION", none, none⟩)).1.live.length ≤ 1 :=
  ⟨by decide,
    single_screen_invariant_own_session 7
      [ScreenOp.showOp 100, ScreenOp.renderOp "d" 110, ScreenOp.showOp 120]
      _ _ (by decide)⟩

/-- C6: when the target's `last_open` parses and `now - last_open` is at
most `ACTIVE_WINDOW` (20 s), `notify_new_dialog` suppresses entirely:
no notification, no screen refresh, no write to either sheet — the returned
world and session equal the inputs. -/
theorem active_window_suppression (dialogs : List DialogRow) (did : String)
    (fromUser now u1 u2 target t : Int) (w : World) (ctx : Option Session)
    (hres : get_dialog_users dialogs did = (some u1, some u2))
    (hu1 : u1 ≠ 0) (hu2 : u2 ≠ 0)
    (htarget : (if u1 = fromUser then u2 else u1) = target)
    (hopen : iso_to_dt (targetLastOpen (get_dialog_meta w.metaRows did) target u1)
      = some t)
    (hwin : now - t ≤ ACTIVE_WINDOW_SEC) :
    notify_new_dialog dialogs did fromUser now w ctx = (w, ctx) := by
  unfold notify_new_dialog
  rw [hres]
  simp [pyTruthyOptInt, hu1, hu2, htarget, hopen, timeWithin, hwin]

theorem active_window_suppression_witness :
    get_dialog_users [⟨"d", 1, 2⟩] "d" = (some 1, some 2) ∧
    (1 : Int) ≠ 0 ∧ (2 : Int) ≠ 0 ∧
    (if (1 : Int) = 1 then (2 : Int) else 1) = 2 ∧
    iso_to_dt (targetLastOpen
      (get_dialog_meta [⟨"d", .empty, .good 95, .empty, .empty⟩] "d") 2 1) = some 95 ∧
    (100 : Int) - 95 ≤ ACTIVE_WINDOW_SEC ∧
    notify_new_dialog [⟨"d", 1, 2⟩] "d" 1 100
      ⟨[], [⟨"d", .empty, .good 95, .empty, .empty⟩], [], 1, []⟩ none =
      (⟨[], [⟨"d", .empty, .good 95, .empty, .empty⟩], [], 1, []⟩, none) :=
  ⟨by decide, by decide, by decide, by decide, by decide, by decide,
    active_window_suppression [⟨"d", 1, 2⟩] "d" 1 100 1 2 2 95 _ none
      (by decide) (by decide) (by decide) (by decide) (by decide) (by decide)⟩

/-- C10: when the target's stored `updated_at` is empty or unparseable
(`iso_to_dt` yields `None` — in particular when the target has no presence
row at all), the silent-refresh branch cannot be taken: if the
active-window and cooldown checks also pass, `notify_new_dialog` takes the
notify path — it appends a notification, stamps the target's `last_notify`
to `now`, and renders no screen (the live main messages are untouched). -/
theorem no_presence_notify_path (dialogs : List DialogRow) (did : String)
    (fromUser now u1 u2 target : Int) (w : World) (ctx : Option Session)
    (hres : get_dialog_users dialogs did = (some u1, some u2))
    (hu1 : u1 ≠ 0) (hu2 : u2 ≠ 0)
    (htarget : (if u1 = fromUser then u2 else u1) = target)
    (hopen : timeWithin (iso_to_dt (targetLastOpen (get_dialog_meta w.metaRows did)
      target u1)) now ACTIVE_WINDOW_SEC = false)
    (hcool : timeWithin (iso_to_dt (targetLastNotify (get_dialog_meta w.metaRows did)
      target u1)) now NOTIFY_COOLDOWN_SEC = false)
    (hupd : iso_to_dt (get_presence w.presenceRows target).updated_at = none) :
    notify_new_dialog dialogs did fromUser now w ctx =
      ({ w with
          notifications := w.notifications ++ [(target, did)],
          metaRows := upsert_dialog_meta w.metaRows
            (stampNotify (get_dialog_meta w.metaRows did) target u1 now) }, ctx) ∧
    iso_to_dt (targetLastNotify
      (get_dialog_meta (notify_new_dialog dialogs did fromUser now w ctx).1.metaRows did)
      target u1) = some now ∧
    (notify_new_dialog dialogs did fromUser now w ctx).1.live = w.live := by
  have hfresh : presenceFresh (get_presence w.presenceRows target) now = false := by
    simp [presenceFresh, hupd, timeWithin]
  have hmain : notify_new_dialog dialogs did fromUser now w ctx =
      ({ w with
          notifications := w.notifications ++ [(target, did)],
          metaRows := upsert_dialog_meta w.metaRows
            (stampNotify (get_dialog_meta w.metaRows did) target u1 now) }, ctx) := by
    unfold notify_new_dialog
    rw [hres]
    simp [pyTruthyOptInt, hu1, hu2, htarget, hopen, hcool, hfresh]
  have hid : (stampNotify (get_dialog_meta w.metaRows did) target u1 now).dialog_id
      = did := by
    rw [stampNotify_id, get_dialog_meta_id]
  refine ⟨hmain, ?_, ?_⟩
  · rw [hmain]
    dsimp only
    rw [get_meta_upsert_at _ _ _ hid, stampNotify_notify]
    rfl
  · rw [hmain]

theorem no_presence_notify_path_witness :
    get_dialog_users [⟨"d", 1, 2⟩] "d" = (some 1, some 2) ∧
    (1 : Int) ≠ 0 ∧ (2 : Int) ≠ 0 ∧
    (if (1 : Int) = 1 then (2 : Int) else 1) = 2 ∧
    timeWithin (iso_to_dt (targetLastOpen (get_dialog_meta [] "d") 2 1)) 100
      ACTIVE_WINDOW_SEC = false ∧
    timeWithin (iso_to_dt (targetLastNotify (get_dialog_meta [] "d") 2 1)) 100
      NOTIFY_COOLDOWN_SEC = false ∧
    iso_to_dt (get_presence [⟨some 2, "DIALOG", "d", some 5, .bad "oops"⟩] 2).updated_at
      = none ∧
    (notify_new_dialog [⟨"d", 1, 2⟩] "d" 1 100
        ⟨[⟨some 2, "DIALOG", "d", some 5, .bad "oops"⟩], [], [5], 6, []⟩ none =
      ({ presenceRows := [⟨some 2, "DIALOG", "d", some 5, .bad "oops"⟩],
         metaRows := upsert_dialog_meta []
           (stampNotify (get_dialog_meta [] "d") 2 1 100),
         live := [5], nextMsgId := 6,
         notifications := [(2, "d")] }, none) ∧
     iso_to_dt (targetLastNotify
       (get_dialog_meta (notify_new_dialog [⟨"d", 1, 2⟩] "d" 1 100
         ⟨[⟨some 2, "DIALOG", "d", some 5, .bad "oops"⟩], [], [5], 6, []⟩ none).1.metaRows
         "d") 2 1) = some 100 ∧
     (notify_new_dialog [⟨"d", 1, 2⟩] "d" 1 100
       ⟨[⟨some 2, "DIALOG", "d", some 5, .bad "oops"⟩], [], [5], 6, []⟩ none).1.live
       = [5]) :=
  ⟨by decide, by decide, by decide, by decide, by decide, by decide, by decide,
    no_presence_notify_path [⟨"d", 1, 2⟩] "d" 1 100 1 2 2 _ none
      (by decide) (by decide) (by decide) (by decide) (by decide) (by decide)
      (by decide)⟩

/-- C1: when the resolution, active-window and cooldown checks pass and the
target's presence shows `state = DIALOG`, the matching dialog id and a
fresh `updated_at`, `notify_new_dialog` takes the silent-refresh path: it
is exactly a `render_dialog_screen` for the target — no notification is
sent and the whole `dialog_meta` sheet (in particular the target's
`last_notify`) is left unchanged. -/
theorem silent_refresh_preserves_cooldown (dialogs : List DialogRow) (did : String)
    (fromUser now u1 u2 target : Int) (w : World) (ctx : Option Session)
    (hres : get_dialog_users dialogs did = (some u1, some u2))
    (hu1 : u1 ≠ 0) (hu2 : u2 ≠ 0)
    (htarget : (if u1 = fromUser then u2 else u1) = target)
    (hopen : timeWithin (iso_to_dt (targetLastOpen (get_dialog_meta w.metaRows did)
      target u1)) now ACTIVE_WINDOW_SEC = false)
    (hcool : timeWithin (iso_to_dt (targetLastNotify (get_dialog_meta w.metaRows did)
      target u1)) now NOTIFY_COOLDOWN_SEC = false)
    (hstate : (get_presence w.presenceRows target).state = STATE_DIALOG)
    (hdia : (get_presence w.presenceRows target).current_dialog_id = did)
    (hfresh : presenceFresh (get_presence w.presenceRows target) now = true) :
    notify_new_dialog dialogs did fromUser now w ctx =
      render_dialog_screen did target now w ctx ∧
    (notify_new_dialog dialogs did fromUser now w ctx).1.metaRows = w.metaRows ∧
    (notify_new_dialog dialogs did fromUser now w ctx).1.notifications
      = w.notifications := by
  have hmain : notify_new_dialog dialogs did fromUser now w ctx =
      render_dialog_screen did target now w ctx := by
    unfold notify_new_dialog
    rw [hres]
    simp [pyTruthyOptInt, hu1, hu2, htarget, hopen, hcool, hstate, hdia, hfresh]
  refine ⟨hmain, ?_, ?_⟩ <;>
    rw [hmain, render_dialog_screen_spec]

theorem silent_refresh_preserves_cooldown_witness :
    get_dialog_users [⟨"d", 1, 2⟩] "d" = (some 1, some 2) ∧
    (1 : Int) ≠ 0 ∧ (2 : Int) ≠ 0 ∧
    (if (1 : Int) = 1 then (2 : Int) else 1) = 2 ∧
    timeWithin (iso_to_dt (targetLastOpen (get_dialog_meta [] "d") 2 1)) 100
      ACTIVE_WINDOW_SEC = false ∧
    timeWithin (iso_to_dt (targetLastNotify (get_dialog_meta [] "d") 2 1)) 100
      NOTIFY_COOLDOWN_SEC = false ∧
    (get_presence [⟨some 2, "DIALOG", "d", some 5, .good 90⟩] 2).state = STATE_DIALOG ∧
    (get_presence [⟨some 2, "DIALOG", "d", some 5, .good 90⟩] 2).current_dialog_id
      = "d" ∧
    presenceFresh (get_presence [⟨some 2, "DIALOG", "d", some 5, .good 90⟩] 2) 100
      = true ∧
    (notify_new_dialog [⟨"d", 1, 2⟩] "d" 1 100
        ⟨[⟨some 2, "DIALOG", "d", some 5, .good 90⟩], [], [5], 6, []⟩ none =
      render_dialog_screen "d" 2 100
        ⟨[⟨some 2, "DIALOG", "d", some 5, .good 90⟩], [], [5], 6, []⟩ none ∧
     (notify_new_dialog [⟨"d", 1, 2⟩] "d" 1 100
        ⟨[⟨some 2, "DIALOG", "d", some 5, .good 90⟩], [], [5], 6, []⟩ none).1.metaRows
        = [] ∧
     World.notifications (notify_new_dialog [⟨"d", 1, 2⟩] "d" 1 100
        ⟨[⟨some 2, "DIALOG", "d", some 5, .good 90⟩], [], [5], 6, []⟩ none).1 = []) :=
  ⟨by decide, by decide, by decide, by decide, by decide, by decide, by decide,
    by decide, by decide,
    silent_refresh_preserves_cooldown [⟨"d", 1, 2⟩] "d" 1 100 1 2 2 _ none
      (by decide) (by decide) (by decide) (by decide) (by decide) (by decide)
      (by decide) (by decide) (by decide)⟩

/-- C5: on the notify path (participants resolved, active window and
cooldown expired, presence not fresh-in-dialog) `notify_new_dialog` sends a
notification and stamps the target's `last_notify` to `now`; a second
qualifying event for the same dialog and sender within `NOTIFY_COOLDOWN`
afterwards is suppressed by the stamped cooldown and changes nothing — no
second notification within one cooldown window under sequential
execution. -/
theorem notify_once_per_cooldown (dialogs : List DialogRow) (did : String)
    (fromUser now now2 u1 u2 target : Int) (w : World) (ctx : Option Session)
    (hres : get_dialog_users dialogs did = (some u1, some u2))
    (hu1 : u1 ≠ 0) (hu2 : u2 ≠ 0)
    (htarget : (if u1 = fromUser then u2 else u1) = target)
    (hopen : timeWithin (iso_to_dt (targetLastOpen (get_dialog_meta w.metaRows did)
      target u1)) now ACTIVE_WINDOW_SEC = false)
    (hcool : timeWithin (iso_to_dt (targetLastNotify (get_dialog_meta w.metaRows did)
      target u1)) now NOTIFY_COOLDOWN_SEC = false)
    (hsilent : ¬ ((get_presence w.presenceRows target).state = STATE_DIALOG ∧
      (get_presence w.presenceRows target).current_dialog_id = did ∧
      presenceFresh (get_presence w.presenceRows target) now = true))
    (_hopen2 : timeWithin (iso_to_dt (targetLastOpen (get_dialog_meta w.metaRows did)
      target u1)) now2 ACTIVE_WINDOW_SEC = false)
    (_hle : now ≤ now2) (hcd : now2 - now ≤ NOTIFY_COOLDOWN_SEC) :
    (notify_new_dialog dialogs did fromUser now w ctx).1.notifications
      = w.notifications ++ [(target, did)] ∧
    iso_to_dt (targetLastNotify
      (get_dialog_meta (notify_new_dialog dialogs did fromUser now w ctx).1.metaRows did)
      target u1) = some now ∧
    notify_new_dialog dialogs did fromUser now2
        (notify_new_dialog dialogs did fromUser now w ctx).1
        (notify_new_dialog dialogs did fromUser now w ctx).2 =
      ((notify_new_dialog dialogs did fromUser now w ctx).1,
       (notify_new_dialog dialogs did fromUser now w ctx).2) := by
  have hmain : notify_new_dialog dialogs did fromUser now w ctx =
      ({ w with
          notifications := w.notifications ++ [(target, did)],
          metaRows := upsert_dialog_meta w.metaRows
            (stampNotify (get_dialog_meta w.metaRows did) target u1 now) }, ctx) := by
    unfold notify_new_dialog
    rw [hres]
    simp [pyTruthyOptInt, hu1, hu2, htarget, hopen, hcool, hsilent]
  have hid : (stampNotify (get_dialog_meta w.metaRows did) target u1 now).dialog_id
      = did := by
    rw [stampNotify_id, get_dialog_meta_id]
  have hmeta2 : get_dialog_meta
      (notify_new_dialog dialogs did fromUser now w ctx).1.metaRows did =
      stampNotify (get_dialog_meta w.metaRows did) target u1 now := by
    rw [hmain]
    exact get_meta_upsert_at _ _ _ hid
  refine ⟨by rw [hmain], ?_, ?_⟩
  · rw [hmeta2, stampNotify_notify]
    rfl
  · rw [hmain]
    dsimp only
    unfold notify_new_dialog
    rw [hres]
    simp [pyTruthyOptInt, hu1, hu2, htarget, get_meta_upsert_at _ _ _ hid,
      stampNotify_open, stampNotify_notify, iso_to_dt, timeWithin, hcd]

theorem notify_once_per_cooldown_witness :
    get_dialog_users [⟨"d", 1, 2⟩] "d" = (some 1, some 2) ∧
    (1 : Int) ≠ 0 ∧ (2 : Int) ≠ 0 ∧
    (if (1 : Int) = 1 then (2 : Int) else 1) = 2 ∧
    timeWithin (iso_to_dt (targetLastOpen (get_dialog_meta [] "d") 2 1)) 100
      ACTIVE_WINDOW_SEC = false ∧
    timeWithin (iso_to_dt (targetLastNotify (get_dialog_meta [] "d") 2 1)) 100
      NOTIFY_COOLDOWN_SEC = false ∧
    ¬ ((get_presence [] 2).state = STATE_DIALOG ∧
      (get_presence [] 2).current_dialog_id = "d" ∧
      presenceFresh (get_presence [] 2) 100 = true) ∧
    timeWithin (iso_to_dt (targetLastOpen (get_dialog_meta [] "d") 2 1)) 101
      ACTIVE_WINDOW_SEC = false ∧
    (100 : Int) ≤ 101 ∧ (101 : Int) - 100 ≤ NOTIFY_COOLDOWN_SEC ∧
    ((notify_new_dialog [⟨"d", 1, 2⟩] "d" 1 100 ⟨[], [], [], 1, []⟩ none).1.notifications
        = [] ++ [(2, "d")] ∧
     iso_to_dt (targetLastNotify (get_dialog_meta
       (notify_new_dialog [⟨"d", 1, 2⟩] "d" 1 100 ⟨[], [], [], 1, []⟩ none).1.metaRows
       "d") 2 1) = some 100 ∧
     notify_new_dialog [⟨"d", 1, 2⟩] "d" 1 101
        (notify_new_dialog [⟨"d", 1, 2⟩] "d" 1 100 ⟨[], [], [], 1, []⟩ none).1
        (notify_new_dialog [⟨"d", 1, 2⟩] "d" 1 100 ⟨[], [], [], 1, []⟩ none).2 =
      ((notify_new_dialog [⟨"d", 1, 2⟩] "d" 1 100 ⟨[], [], [], 1, []⟩ none).1,
       (notify_new_dialog [⟨"d", 1, 2⟩] "d" 1 100 ⟨[], [], [], 1, []⟩ none).2)) :=
  ⟨by decide, by decide, by decide, by decide, by decide, by decide, by decide,
    by decide, by decide, by decide,
    notify_once_per_cooldown [⟨"d", 1, 2⟩] "d" 1 100 101 1 2 2 _ none
      (by decide) (by decide) (by decide) (by decide) (by decide) (by decide)
      (by decide) (by decide) (by decide) (by decide)⟩
